import Mathlib

/-!
Verification of the graphalchemy schema/adjacency/relation-proxy engine and
the identity-map/session/unit-of-work persistence engine.

The Python source is shallowly embedded: object instances are identified by
natural-number identities, Python dicts keyed by object identity become
association lists over those identities, and in-place mutation becomes
explicit state passing.  A raised Python exception is modelled as a
`some e : Option PyError` component of the result, paired with the state as
it stands when the exception escapes (Python mutations performed before the
raise survive it).
-/

set_option autoImplicit false

/-- Python exceptions that the embedded code can raise. -/
inductive PyError where
  | exception (msg : String)
  | nameError
  | attributeError
  | recursionError
  deriving DecidableEq, Repr

/-! ### Association lists (the shallow embedding of Python dicts)

Python dict keys here are always compared by object identity (default
`__eq__`/`__hash__` of the fixture classes), which the `Nat` identities model
exactly.  `aset` is `d[k] = v` (replace in place or append), `alookup` is
`d[k]`/`d.get(k)`, `akeys` is `d.keys()`, `aerase` is `d.pop(k)`. -/

def alookup {α β : Type} [DecidableEq α] (l : List (α × β)) (k : α) : Option β :=
  match l with
  | [] => none
  | (k', v) :: t => if k' = k then some v else alookup t k

def aset {α β : Type} [DecidableEq α] (l : List (α × β)) (k : α) (v : β) : List (α × β) :=
  match l with
  | [] => [(k, v)]
  | (k', v') :: t => if k' = k then (k, v) :: t else (k', v') :: aset t k v

def akeys {α β : Type} [DecidableEq α] (l : List (α × β)) : List α :=
  l.map (fun p => p.1)

/-- Number of entries stored under key `k` (a Python dict invariantly has at
most one; we count to state "exactly one entry per side"). -/
def acount {α β : Type} [DecidableEq α] (l : List (α × β)) (k : α) : Nat :=
  (l.filter (fun p => p.1 = k)).length

@[simp] theorem alookup_nil {α β : Type} [DecidableEq α] (k : α) : alookup ([] : List (α × β)) k = none := rfl

@[simp] theorem alookup_cons {α β : Type} [DecidableEq α] (a : α) (b : β) (t : List (α × β)) (k : α) :
    alookup ((a, b) :: t) k = if a = k then some b else alookup t k := rfl

@[simp] theorem aset_nil {α β : Type} [DecidableEq α] (k : α) (v : β) : aset ([] : List (α × β)) k v = [(k, v)] := rfl

@[simp] theorem aset_cons {α β : Type} [DecidableEq α] (a : α) (b : β) (t : List (α × β)) (k : α) (v : β) :
    aset ((a, b) :: t) k v = if a = k then (k, v) :: t else (a, b) :: aset t k v := rfl

@[simp] theorem akeys_nil {α β : Type} [DecidableEq α] : akeys ([] : List (α × β)) = [] := rfl

@[simp] theorem akeys_cons {α β : Type} [DecidableEq α] (p : α × β) (t : List (α × β)) :
    akeys (p :: t) = p.1 :: akeys t := rfl

theorem acount_cons {α β : Type} [DecidableEq α] (p : α × β) (t : List (α × β)) (k : α) :
    acount (p :: t) k = (if p.1 = k then 1 else 0) + acount t k := by
  by_cases hp : p.1 = k
  · simp [acount, List.filter_cons, hp, Nat.add_comm]
  · simp [acount, List.filter_cons, hp]

theorem aset_of_not_mem {α β : Type} [DecidableEq α] (l : List (α × β)) (k : α) (v : β)
    (h : k ∉ akeys l) : aset l k v = l ++ [(k, v)] := by
  induction l with
  | nil => rfl
  | cons p t ih =>
    obtain ⟨a, b⟩ := p
    rw [akeys_cons, List.mem_cons] at h
    push_neg at h
    rw [aset_cons, if_neg (fun he => h.1 he.symm), ih (by simpa using h.2)]
    rfl

theorem alookup_aset_self {α β : Type} [DecidableEq α] (l : List (α × β)) (k : α) (v : β) :
    alookup (aset l k v) k = some v := by
  induction l with
  | nil => simp
  | cons p t ih =>
    obtain ⟨a, b⟩ := p
    by_cases h : a = k
    · simp [h]
    · simp [h, ih]

theorem alookup_aset_ne {α β : Type} [DecidableEq α] (l : List (α × β)) (k k' : α) (v : β)
    (h : k ≠ k') : alookup (aset l k v) k' = alookup l k' := by
  induction l with
  | nil => simp [h]
  | cons p t ih =>
    obtain ⟨a, b⟩ := p
    by_cases hp : a = k
    · subst hp
      simp [h]
    · rw [aset_cons, if_neg hp]
      by_cases ha : a = k'
      · simp [ha]
      · simp [ha, ih]

theorem mem_akeys_aset_self {α β : Type} [DecidableEq α] (l : List (α × β)) (k : α) (v : β) :
    k ∈ akeys (aset l k v) := by
  induction l with
  | nil => simp
  | cons p t ih =>
    obtain ⟨a, b⟩ := p
    by_cases h : a = k
    · simp [h]
    · simp only [aset_cons, if_neg h, akeys_cons, List.mem_cons]
      exact Or.inr ih

theorem alookup_isSome_of_mem_akeys {α β : Type} [DecidableEq α] (l : List (α × β)) (k : α)
    (h : k ∈ akeys l) : (alookup l k).isSome := by
  induction l with
  | nil => simp at h
  | cons p t ih =>
    obtain ⟨a, b⟩ := p
    rw [akeys_cons, List.mem_cons] at h
    by_cases hp : a = k
    · simp [hp]
    · rw [alookup_cons, if_neg hp]
      exact ih (h.resolve_left (fun he => hp he.symm))

theorem not_mem_akeys_iff {α β : Type} [DecidableEq α] (l : List (α × β)) (k : α) :
    k ∉ akeys l ↔ alookup l k = none := by
  induction l with
  | nil => simp
  | cons p t ih =>
    obtain ⟨a, b⟩ := p
    by_cases hp : a = k
    · subst hp
      simp
    · have hk : ¬ k = a := fun he => hp he.symm
      simp [hp, hk, ih]

theorem acount_eq_zero_of_not_mem {α β : Type} [DecidableEq α] (l : List (α × β)) (k : α)
    (h : k ∉ akeys l) : acount l k = 0 := by
  induction l with
  | nil => rfl
  | cons p t ih =>
    obtain ⟨a, b⟩ := p
    rw [akeys_cons, List.mem_cons] at h
    push_neg at h
    rw [acount_cons]
    simp only [if_neg (fun he : (a, b).1 = k => h.1 he.symm)]
    simpa using ih (by simpa using h.2)

theorem acount_append {α β : Type} [DecidableEq α] (l l' : List (α × β)) (k : α) :
    acount (l ++ l') k = acount l k + acount l' k := by
  simp [acount, List.filter_append]

theorem acount_aset_mem {α β : Type} [DecidableEq α] (l : List (α × β)) (k : α) (v : β)
    (h : k ∈ akeys l) : acount (aset l k v) k = acount l k := by
  induction l with
  | nil => simp at h
  | cons p t ih =>
    obtain ⟨a, b⟩ := p
    by_cases hp : a = k
    · subst hp
      simp [acount_cons]
    · rw [akeys_cons, List.mem_cons] at h
      have ht : k ∈ akeys t := h.resolve_left (fun he => hp he.symm)
      rw [aset_cons, if_neg hp, acount_cons, acount_cons, ih ht]

/-! ### The relation-collection engine (`RelationDict.__setitem__`)

`RelWorld` is the mutable object graph seen by one `Adjacency` whose two
node endpoints are both mapped (both `out_method` and `in_method` set, as the
fixtures do): for every node instance `n`, `outColl n` is the `RelationDict`
behind its out-direction accessor and `inColl n` the one behind its
in-direction accessor; `relOutV`/`relInV` are the `outV`/`inV` attributes of
relationship instances, and `isRelInstance` is Python's
`isinstance(r, adjacency.relationship.class_)`. -/

structure RelWorld where
  outColl : Nat → List (Nat × Nat)
  inColl : Nat → List (Nat × Nat)
  relOutV : Nat → Option Nat
  relInV : Nat → Option Nat
  isRelInstance : Nat → Bool

/-- The two directions of `Relationship` (`Relationship.OUT` / `Relationship.IN`). -/
inductive Direction where
  | OUT
  | IN
  deriving DecidableEq, Repr

def Direction.flip : Direction → Direction
  | .OUT => .IN
  | .IN => .OUT

/-- `super(RelationDict, self).__setitem__(relationship, node)`: the plain
dict assignment on the owning side's collection. -/
def setDirect (d : Direction) (parent rel node : Nat) (w : RelWorld) : RelWorld :=
  match d with
  | .OUT => { w with outColl := fun n => if n = parent then aset (w.outColl n) rel node else w.outColl n }
  | .IN => { w with inColl := fun n => if n = parent then aset (w.inColl n) rel node else w.inColl n }

/-- The two endpoint assignments of `RelationDict.__setitem__`
(`relationship.outV = ...; relationship.inV = ...`, per direction). -/
def setEnds (d : Direction) (parent rel node : Nat) (w : RelWorld) : RelWorld :=
  match d with
  | .OUT =>
      { w with relOutV := fun k => if k = rel then some parent else w.relOutV k,
               relInV := fun k => if k = rel then some node else w.relInV k }
  | .IN =>
      { w with relOutV := fun k => if k = rel then some node else w.relOutV k,
               relInV := fun k => if k = rel then some parent else w.relInV k }

/-- `getattr(node, self.__backref)`: the opposite endpoint's reverse
collection (for a `RelationDict` of direction `d`, the backref accessor has
the flipped direction). -/
def reverseColl (d : Direction) (node : Nat) (w : RelWorld) : List (Nat × Nat) :=
  match d with
  | .OUT => w.inColl node
  | .IN => w.outColl node

/-- `RelationDict.__setitem__(relationship, node)` for an explicit
relationship key, with a recursion-depth fuel standing for Python's call
stack (exhaustion would be Python's `RecursionError`; `relSetItemF_fuel`
below proves fuel `2` already reaches the guard, which is the source's
protection against infinite mutual recursion).  Steps, in source order:
the `isinstance` type check, the plain dict assignment on the owning side,
the two endpoint assignments, then the mirrored insertion into the reverse
collection unless the relationship key is already present there. -/
def relSetItemF : Nat → Direction → Nat → Nat → Nat → RelWorld → RelWorld × Option PyError
  | 0, _, _, _, _, w => (w, some PyError.recursionError)
  | Nat.succ fuel, d, parent, rel, node, w =>
    if w.isRelInstance rel = false then
      (w, some (PyError.exception "Expected relation to be instance of the relationship class"))
    else
      let w2 := setEnds d parent rel node (setDirect d parent rel node w)
      if rel ∈ akeys (reverseColl d node w2) then (w2, none)
      else relSetItemF fuel d.flip node rel parent w2

/-- The actual `__setitem__`: the mirrored insertion recurses at most once
before the already-present guard stops it, so fuel 2 is its exact semantics
(`relSetItemF_fuel`). -/
def relSetItem (d : Direction) (parent rel node : Nat) (w : RelWorld) : RelWorld × Option PyError :=
  relSetItemF 2 d parent rel node w

@[simp] theorem setDirect_isRelInstance (d : Direction) (p r n : Nat) (w : RelWorld) :
    (setDirect d p r n w).isRelInstance = w.isRelInstance := by cases d <;> rfl

@[simp] theorem setEnds_isRelInstance (d : Direction) (p r n : Nat) (w : RelWorld) :
    (setEnds d p r n w).isRelInstance = w.isRelInstance := by cases d <;> rfl

@[simp] theorem setEnds_outColl (d : Direction) (p r n : Nat) (w : RelWorld) :
    (setEnds d p r n w).outColl = w.outColl := by cases d <;> rfl

@[simp] theorem setEnds_inColl (d : Direction) (p r n : Nat) (w : RelWorld) :
    (setEnds d p r n w).inColl = w.inColl := by cases d <;> rfl

@[simp] theorem setDirect_relOutV (d : Direction) (p r n : Nat) (w : RelWorld) :
    (setDirect d p r n w).relOutV = w.relOutV := by cases d <;> rfl

@[simp] theorem setDirect_relInV (d : Direction) (p r n : Nat) (w : RelWorld) :
    (setDirect d p r n w).relInV = w.relInV := by cases d <;> rfl

@[simp] theorem setDirect_OUT_outColl (p r n : Nat) (w : RelWorld) (m : Nat) :
    (setDirect Direction.OUT p r n w).outColl m =
      if m = p then aset (w.outColl m) r n else w.outColl m := rfl

@[simp] theorem setDirect_OUT_inColl (p r n : Nat) (w : RelWorld) :
    (setDirect Direction.OUT p r n w).inColl = w.inColl := rfl

@[simp] theorem setDirect_IN_inColl (p r n : Nat) (w : RelWorld) (m : Nat) :
    (setDirect Direction.IN p r n w).inColl m =
      if m = p then aset (w.inColl m) r n else w.inColl m := rfl

@[simp] theorem setDirect_IN_outColl (p r n : Nat) (w : RelWorld) :
    (setDirect Direction.IN p r n w).outColl = w.outColl := rfl

@[simp] theorem setEnds_OUT_relOutV (p r n : Nat) (w : RelWorld) (k : Nat) :
    (setEnds Direction.OUT p r n w).relOutV k = if k = r then some p else w.relOutV k := rfl

@[simp] theorem setEnds_OUT_relInV (p r n : Nat) (w : RelWorld) (k : Nat) :
    (setEnds Direction.OUT p r n w).relInV k = if k = r then some n else w.relInV k := rfl

@[simp] theorem setEnds_IN_relOutV (p r n : Nat) (w : RelWorld) (k : Nat) :
    (setEnds Direction.IN p r n w).relOutV k = if k = r then some n else w.relOutV k := rfl

@[simp] theorem setEnds_IN_relInV (p r n : Nat) (w : RelWorld) (k : Nat) :
    (setEnds Direction.IN p r n w).relInV k = if k = r then some p else w.relInV k := rfl

@[simp] theorem reverseColl_OUT (n : Nat) (w : RelWorld) :
    reverseColl Direction.OUT n w = w.inColl n := rfl

@[simp] theorem reverseColl_IN (n : Nat) (w : RelWorld) :
    reverseColl Direction.IN n w = w.outColl n := rfl

/-- When the relationship key is already present in the reverse collection,
`__setitem__` stops after the direct assignment and the endpoint updates. -/
theorem relSetItem_guard (x r y : Nat) (w : RelWorld)
    (hrel : w.isRelInstance r = true)
    (hg : r ∈ akeys (w.inColl y)) :
    relSetItem Direction.OUT x r y w =
      (setEnds Direction.OUT x r y (setDirect Direction.OUT x r y w), none) := by
  rw [relSetItem]
  show relSetItemF (Nat.succ 1) Direction.OUT x r y w = _
  rw [relSetItemF]
  rw [if_neg (by simp [hrel])]
  simp only [reverseColl_OUT, setEnds_inColl, setDirect_OUT_inColl]
  rw [if_pos hg]

/-- When the relationship key is absent from the reverse collection,
`__setitem__` performs the mirrored insertion on the opposite side, whose own
reverse check then finds the key already present and stops the recursion. -/
theorem relSetItem_mirror (x r y : Nat) (w : RelWorld)
    (hrel : w.isRelInstance r = true)
    (hg : r ∉ akeys (w.inColl y)) :
    relSetItem Direction.OUT x r y w =
      (setEnds Direction.IN y r x (setDirect Direction.IN y r x
        (setEnds Direction.OUT x r y (setDirect Direction.OUT x r y w))), none) := by
  rw [relSetItem]
  show relSetItemF (Nat.succ 1) Direction.OUT x r y w = _
  rw [relSetItemF]
  rw [if_neg (by simp [hrel])]
  simp only [reverseColl_OUT, setEnds_inColl, setDirect_OUT_inColl]
  rw [if_neg hg]
  show relSetItemF (Nat.succ 0) Direction.IN y r x _ = _
  rw [relSetItemF]
  rw [if_neg (by simp [hrel])]
  simp only [reverseColl_IN, setEnds_outColl, setDirect_IN_outColl, setEnds_inColl]
  rw [if_pos]
  simp only [setDirect_OUT_outColl, if_pos rfl]
  exact mem_akeys_aset_self _ _ _

/-- One-step unfolding of `relSetItemF` at positive fuel. -/
theorem relSetItemF_succ (k : Nat) (d : Direction) (p r v : Nat) (w : RelWorld) :
    relSetItemF (Nat.succ k) d p r v w =
      if w.isRelInstance r = false then
        (w, some (PyError.exception "Expected relation to be instance of the relationship class"))
      else if r ∈ akeys (reverseColl d v (setEnds d p r v (setDirect d p r v w))) then
        (setEnds d p r v (setDirect d p r v w), none)
      else relSetItemF k d.flip v r p (setEnds d p r v (setDirect d p r v w)) := rfl

/-- If the relationship key is already mirrored on the reverse side, one step
of `__setitem__` stops at the guard, at any positive fuel. -/
theorem relSetItemF_stop (k : Nat) (d : Direction) (p r v : Nat) (w : RelWorld)
    (hrel : w.isRelInstance r = true)
    (hmem : r ∈ akeys (reverseColl d v (setEnds d p r v (setDirect d p r v w)))) :
    relSetItemF (Nat.succ k) d p r v w = (setEnds d p r v (setDirect d p r v w), none) := by
  rw [relSetItemF_succ k d p r v w, if_neg (by simp [hrel]), if_pos hmem]

/-- Fuel beyond 2 never matters: the mirrored insertion's own guard always
fires, so the mutual recursion of `RelationDict.__setitem__` terminates after
at most one mirrored call.  This is the "no infinite recursion" guarantee of
the check-before-insert guard. -/
theorem relSetItemF_fuel (m : Nat) (d : Direction) (p r v : Nat) (w : RelWorld) :
    relSetItemF (m + 2) d p r v w = relSetItem d p r v w := by
  rw [relSetItem]
  by_cases hrel : w.isRelInstance r = false
  · show relSetItemF (Nat.succ (m + 1)) d p r v w = relSetItemF (Nat.succ 1) d p r v w
    rw [relSetItemF_succ (m + 1) d p r v w, relSetItemF_succ 1 d p r v w, if_pos hrel, if_pos hrel]
  · have hrel' : w.isRelInstance r = true := by
      cases h : w.isRelInstance r
      · exact absurd h hrel
      · rfl
    show relSetItemF (Nat.succ (m + 1)) d p r v w = relSetItemF (Nat.succ 1) d p r v w
    rw [relSetItemF_succ (m + 1) d p r v w, relSetItemF_succ 1 d p r v w,
      if_neg hrel, if_neg hrel]
    by_cases hg : r ∈ akeys (reverseColl d v (setEnds d p r v (setDirect d p r v w)))
    · rw [if_pos hg, if_pos hg]
    · rw [if_neg hg, if_neg hg]
      -- both remaining calls have fuel ≥ 1 and hit the inner guard
      have hmem : r ∈ akeys (reverseColl d.flip p (setEnds d.flip v r p (setDirect d.flip v r p
          (setEnds d p r v (setDirect d p r v w))))) := by
        cases d
        · simpa [Direction.flip] using mem_akeys_aset_self (w.outColl p) r v
        · simpa [Direction.flip] using mem_akeys_aset_self (w.inColl p) r v
      show relSetItemF (Nat.succ m) d.flip v r p _ = relSetItemF (Nat.succ 0) d.flip v r p _
      rw [relSetItemF_stop m d.flip v r p _ (by simp [hrel']) hmem,
        relSetItemF_stop 0 d.flip v r p _ (by simp [hrel']) hmem]

/-! ### Claims C1, C7, C10: behaviour of keyed insertion -/

/-- A fresh object graph for the adjacency: no collections populated, no
endpoint references set; relationship instances are of the right class. -/
def emptyRelWorld : RelWorld :=
  { outColl := fun _ => []
    inColl := fun _ => []
    relOutV := fun _ => none
    relInV := fun _ => none
    isRelInstance := fun _ => true }

/-- C1 (amended): after a successful keyed insertion `x.accessorOut[r] = y`,
the owning side maps `r` to `y` and `r.outV is x`, `r.inV is y`; the reverse
accessor `y.accessorIn` maps `r` to `x` provided `r` was not already present
in `y`'s reverse collection under a different owner (the check-before-insert
mirror guard skips the reverse write when the key is already there). -/
theorem c1_mirrored_visibility_amended (w : RelWorld) (x r y : Nat)
    (hrel : w.isRelInstance r = true)
    (hmir : ∀ v, alookup (w.inColl y) r = some v → v = x) :
    (relSetItem Direction.OUT x r y w).2 = none ∧
    alookup ((relSetItem Direction.OUT x r y w).1.outColl x) r = some y ∧
    alookup ((relSetItem Direction.OUT x r y w).1.inColl y) r = some x ∧
    (relSetItem Direction.OUT x r y w).1.relOutV r = some x ∧
    (relSetItem Direction.OUT x r y w).1.relInV r = some y := by
  by_cases hy : r ∈ akeys (w.inColl y)
  · have e := relSetItem_guard x r y w hrel hy
    have hs := alookup_isSome_of_mem_akeys _ _ hy
    obtain ⟨v, hv⟩ := Option.isSome_iff_exists.mp hs
    have hvx := hmir v hv
    subst hvx
    refine ⟨by rw [e], ?_, ?_, ?_, ?_⟩
    · rw [e]
      simp [alookup_aset_self]
    · rw [e]
      simpa using hv
    · rw [e]
      simp
    · rw [e]
      simp
  · have e := relSetItem_mirror x r y w hrel hy
    refine ⟨by rw [e], ?_, ?_, ?_, ?_⟩
    · rw [e]
      simp [alookup_aset_self]
    · rw [e]
      simp [alookup_aset_self]
    · rw [e]
      simp
    · rw [e]
      simp

/-- Witness for C1 (amended) at a concrete fresh insertion. -/
theorem c1_witness :
    (relSetItem Direction.OUT 1 2 3 emptyRelWorld).2 = none ∧
    alookup ((relSetItem Direction.OUT 1 2 3 emptyRelWorld).1.outColl 1) 2 = some 3 ∧
    alookup ((relSetItem Direction.OUT 1 2 3 emptyRelWorld).1.inColl 3) 2 = some 1 ∧
    (relSetItem Direction.OUT 1 2 3 emptyRelWorld).1.relOutV 2 = some 1 ∧
    (relSetItem Direction.OUT 1 2 3 emptyRelWorld).1.relInV 2 = some 3 :=
  c1_mirrored_visibility_amended emptyRelWorld 1 2 3 rfl (fun v h => by simp [emptyRelWorld] at h)

/-- State after `x1.accessorOut[r] = y` with `x1 = 1`, `r = 100`, `y = 10`. -/
def c1World1 : RelWorld := (relSetItem Direction.OUT 1 100 10 emptyRelWorld).1

/-- State after the subsequent `x2.accessorOut[r] = y` with `x2 = 2`: the
relationship key `100` is re-keyed to a new owner. -/
def c1World2 : RelWorld := (relSetItem Direction.OUT 2 100 10 c1World1).1

/-- C1 counterexample: a successful keyed insertion `x2.accessorOut[r] = y`
(owner `2`, relationship `100`, endpoint `10`) whose entry and endpoint
references are updated, but whose mirrored entry `y.accessorIn[r]` still
names the previous owner `1`, not `2` — the mirror guard skipped the reverse
write because `r` was already present there.  So the claimed mirrored
visibility does not hold for every successful keyed insertion. -/
theorem c1_counterexample :
    (relSetItem Direction.OUT 2 100 10 c1World1).2 = none ∧
    alookup (c1World2.outColl 2) 100 = some 10 ∧
    c1World2.relOutV 100 = some 2 ∧
    c1World2.relInV 100 = some 10 ∧
    alookup (c1World2.inColl 10) 100 = some 1 ∧
    ¬ alookup (c1World2.inColl 10) 100 = some 2 := by
  decide

/-- C7: keyed insertion on a relation collection is idempotent: inserting the
identical pair `(r, y)` twice leaves exactly one entry keyed by `r` on the
owner's side mapping to `y`, and exactly one mirrored entry keyed by `r` on
the endpoint's reverse side mapping to `x` (no duplicate mirroring; the
totality of `relSetItem` at fuel 2 — `relSetItemF_fuel` — is the absence of
infinite recursion). -/
theorem c7_keyed_insert_idempotent (w : RelWorld) (x r y : Nat)
    (hrel : w.isRelInstance r = true)
    (hx : r ∉ akeys (w.outColl x))
    (hy : r ∉ akeys (w.inColl y)) :
    (relSetItem Direction.OUT x r y w).2 = none ∧
    (relSetItem Direction.OUT x r y (relSetItem Direction.OUT x r y w).1).2 = none ∧
    acount ((relSetItem Direction.OUT x r y (relSetItem Direction.OUT x r y w).1).1.outColl x) r = 1 ∧
    alookup ((relSetItem Direction.OUT x r y (relSetItem Direction.OUT x r y w).1).1.outColl x) r = some y ∧
    acount ((relSetItem Direction.OUT x r y (relSetItem Direction.OUT x r y w).1).1.inColl y) r = 1 ∧
    alookup ((relSetItem Direction.OUT x r y (relSetItem Direction.OUT x r y w).1).1.inColl y) r = some x := by
  have e1 := relSetItem_mirror x r y w hrel hy
  have hrel1 : (relSetItem Direction.OUT x r y w).1.isRelInstance r = true := by
    rw [e1]
    simpa using hrel
  have ho1 : (relSetItem Direction.OUT x r y w).1.outColl x = aset (w.outColl x) r y := by
    rw [e1]
    simp
  have hi1 : (relSetItem Direction.OUT x r y w).1.inColl y = aset (w.inColl y) r x := by
    rw [e1]
    simp
  have hy1 : r ∈ akeys ((relSetItem Direction.OUT x r y w).1.inColl y) := by
    rw [hi1]
    exact mem_akeys_aset_self _ _ _
  have e2 := relSetItem_guard x r y _ hrel1 hy1
  have ho2 : (relSetItem Direction.OUT x r y (relSetItem Direction.OUT x r y w).1).1.outColl x =
      aset (aset (w.outColl x) r y) r y := by
    rw [e2]
    simp [ho1]
  have hi2 : (relSetItem Direction.OUT x r y (relSetItem Direction.OUT x r y w).1).1.inColl y =
      aset (w.inColl y) r x := by
    rw [e2]
    simp [hi1]
  refine ⟨by rw [e1], by rw [e2], ?_, ?_, ?_, ?_⟩
  · rw [ho2, acount_aset_mem _ _ _ (mem_akeys_aset_self _ _ _),
      aset_of_not_mem _ _ _ hx, acount_append, acount_eq_zero_of_not_mem _ _ hx]
    simp [acount]
  · rw [ho2, alookup_aset_self]
  · rw [hi2, aset_of_not_mem _ _ _ hy, acount_append, acount_eq_zero_of_not_mem _ _ hy]
    simp [acount]
  · rw [hi2, alookup_aset_self]

/-- Witness for C7 at a concrete fresh double insertion. -/
theorem c7_witness :
    (relSetItem Direction.OUT 1 2 3 emptyRelWorld).2 = none ∧
    (relSetItem Direction.OUT 1 2 3 (relSetItem Direction.OUT 1 2 3 emptyRelWorld).1).2 = none ∧
    acount ((relSetItem Direction.OUT 1 2 3 (relSetItem Direction.OUT 1 2 3 emptyRelWorld).1).1.outColl 1) 2 = 1 ∧
    alookup ((relSetItem Direction.OUT 1 2 3 (relSetItem Direction.OUT 1 2 3 emptyRelWorld).1).1.outColl 1) 2 = some 3 ∧
    acount ((relSetItem Direction.OUT 1 2 3 (relSetItem Direction.OUT 1 2 3 emptyRelWorld).1).1.inColl 3) 2 = 1 ∧
    alookup ((relSetItem Direction.OUT 1 2 3 (relSetItem Direction.OUT 1 2 3 emptyRelWorld).1).1.inColl 3) 2 = some 1 :=
  c7_keyed_insert_idempotent emptyRelWorld 1 2 3 rfl (by simp [emptyRelWorld]) (by simp [emptyRelWorld])

/-- C10: re-keying an existing relationship `r` (owned by `x`, mirrored at
`y1`) to a new endpoint `y2` rebinds the owner's entry to `y2`, updates the
endpoint references, inserts the mirror at `y2`, and leaves the stale mirror
at `y1` in place, so `r` appears in both reverse collections. -/
theorem c10_rekey_stale_mirror (w : RelWorld) (x r y1 y2 : Nat)
    (hrel : w.isRelInstance r = true)
    (hown : alookup (w.outColl x) r = some y1)
    (hmir : alookup (w.inColl y1) r = some x)
    (hne : y1 ≠ y2)
    (hfresh : r ∉ akeys (w.inColl y2)) :
    (relSetItem Direction.OUT x r y2 w).2 = none ∧
    alookup ((relSetItem Direction.OUT x r y2 w).1.outColl x) r = some y2 ∧
    (relSetItem Direction.OUT x r y2 w).1.relOutV r = some x ∧
    (relSetItem Direction.OUT x r y2 w).1.relInV r = some y2 ∧
    alookup ((relSetItem Direction.OUT x r y2 w).1.inColl y2) r = some x ∧
    alookup ((relSetItem Direction.OUT x r y2 w).1.inColl y1) r = some x := by
  have e := relSetItem_mirror x r y2 w hrel hfresh
  refine ⟨by rw [e], ?_, ?_, ?_, ?_, ?_⟩
  · rw [e]
    simp [alookup_aset_self]
  · rw [e]
    simp
  · rw [e]
    simp
  · rw [e]
    simp [alookup_aset_self]
  · rw [e]
    simp [hne, hmir]

/-- A concrete persisted state for C10: owner `1` holds relationship `2`
mapped to endpoint `3`, mirrored at `3`. -/
def c10World : RelWorld :=
  { outColl := fun n => if n = 1 then [(2, 3)] else []
    inColl := fun n => if n = 3 then [(2, 1)] else []
    relOutV := fun k => if k = 2 then some 1 else none
    relInV := fun k => if k = 2 then some 3 else none
    isRelInstance := fun _ => true }

/-- Witness for C10: re-keying relationship `2` from endpoint `3` to endpoint
`4` leaves the stale mirror at `3`. -/
theorem c10_witness :
    (relSetItem Direction.OUT 1 2 4 c10World).2 = none ∧
    alookup ((relSetItem Direction.OUT 1 2 4 c10World).1.outColl 1) 2 = some 4 ∧
    (relSetItem Direction.OUT 1 2 4 c10World).1.relOutV 2 = some 1 ∧
    (relSetItem Direction.OUT 1 2 4 c10World).1.relInV 2 = some 4 ∧
    alookup ((relSetItem Direction.OUT 1 2 4 c10World).1.inColl 4) 2 = some 1 ∧
    alookup ((relSetItem Direction.OUT 1 2 4 c10World).1.inColl 3) 2 = some 1 :=
  c10_rekey_stale_mirror c10World 1 2 3 4 rfl (by simp [c10World]) (by simp [c10World])
    (by decide) (by simp [c10World])

/-! ### The persistence engine: schema, metadata, identity map, session,
unit of work

Scalar property types live in `graphalchemy.blueprints.types`, which is not
part of the verified sources; per §4.1 of the spec they are pure validators
and pure coercions, so each `PropSpec` carries them as opaque functions. -/

/-- A Python property value (the scalar payloads the fixtures use). -/
inductive PVal where
  | vStr (s : String)
  | vInt (n : Int)
  | vBool (b : Bool)
  deriving DecidableEq, Repr

/-- Remove the entry under `k` (Python `dict.pop(k)`; keys are unique in a
dict, so removing the first occurrence is exact). -/
def aerase {α β : Type} [DecidableEq α] : List (α × β) → α → List (α × β)
  | [], _ => []
  | (a, b) :: t, k => if a = k then t else (a, b) :: aerase t k

/-- `Property` (schema.py): application name, store name, tri-state
`nullable` (Python `None`/`True`/`False`), and the scalar type's validator
and store coercion.  `typeValidate`/`toDb` are modelled from the spec:
the scalar type classes (`graphalchemy.blueprints.types`) are not under
the verified sources; §4.1 says they are pure validators/pure coercions. -/
structure PropSpec where
  namePy : String
  nameDb : String
  nullable : Option Bool
  typeValidate : Option PVal → Bool × List String
  toDb : Option PVal → Option PVal

/-- `Property.validate`: non-nullable and absent value fails with the fixed
error; otherwise delegate to the scalar type's validator. -/
def propertyValidate (p : PropSpec) (v : Option PVal) : Bool × List String :=
  if p.nullable = some false ∧ v = none then (false, ["Property is not nullable."])
  else p.typeValidate v

/-- One `Model` (`Node` or `Relationship`): its name, the reserved storage
key (`element_type` for nodes, `label` for edges), its kind, and its
declared properties in registration order. -/
structure ModelSpec where
  modelName : String
  storageKey : String
  isNode : Bool
  props : List PropSpec

/-- `MetaData`: the two registries {class → Model}, as association lists in
insertion order (Python classes are identified by `Nat`). -/
structure MetaDataMap where
  nodes : List (Nat × ModelSpec)
  relationships : List (Nat × ModelSpec)

/-- `MetaData.for_model_name`, exactly as written: scan `_nodes` returning
the first node model with a matching name; then scan `_relationships`, but
on a match `return node_model` — the leftover loop variable from the first
scan, i.e. the LAST node registry entry (a `NameError` when there is none);
otherwise raise the unmapped-model error. -/
def forModelName (md : MetaDataMap) (name : String) : Except PyError ModelSpec :=
  match md.nodes.find? (fun p => p.2.modelName == name) with
  | some p => Except.ok p.2
  | none =>
    if md.relationships.any (fun p => p.2.modelName == name) then
      match md.nodes.getLast? with
      | some q => Except.ok q.2
      | none => Except.error PyError.nameError
    else Except.error (PyError.exception "Unmapped model.")

/-- `MetaData.for_class`: node registry first, then relationships, else the
unmapped-class error. -/
def forClass (md : MetaDataMap) (c : Nat) : Except PyError ModelSpec :=
  match alookup md.nodes c with
  | some m => Except.ok m
  | none =>
    match alookup md.relationships c with
    | some m => Except.ok m
    | none => Except.error (PyError.exception "Unmapped class.")

/-- A tracked Python instance: its class, its plain attributes (`getattr` by
application property name), its `id` attribute (`none` = attribute absent),
and — for edge instances — the `outV`/`inV` references set by the relation
engine, as heap identities of the endpoint objects. -/
structure ObjData where
  class_ : Nat
  attrs : List (String × Option PVal)
  id : Option Nat
  outV : Option Nat
  inV : Option Nat
  deriving DecidableEq, Repr

/-- `InstanceState`: lifecycle flag, store identifier, last-persisted
snapshot.  (The weak back-reference and `class_` are represented by the
identity-map key.) -/
structure InstState where
  state : String
  id : Option Nat
  attributes : List (String × Option PVal)
  deriving DecidableEq, Repr

/-- `InstanceState.__init__`. -/
def freshInstState : InstState :=
  { state := "add", id := none, attributes := [] }

/-- `getattr(obj, name)` for a property attribute.  The fixture classes
initialize every declared property attribute in `__init__`, so an entry
absent from `attrs` models the Python value `None`. -/
def getattrP (obj : ObjData) (n : String) : Option PVal :=
  match alookup obj.attrs n with
  | some v => v
  | none => none

/-- `InstanceState.attribute_has_changed`: never snapshotted and present, or
different from the snapshot. -/
def attributeHasChanged (st : InstState) (attname : String) (value : Option PVal) : Bool :=
  match alookup st.attributes attname with
  | none => value != none
  | some old => old != value

/-- One call issued to the store collaborator (§6 of the spec). -/
inductive StoreCall where
  | createVertex (data : List (String × Option PVal))
  | createEdge (outId : Nat) (label : String) (inId : Nat) (data : List (String × Option PVal))
  | updateVertex (id : Option Nat) (data : List (String × Option PVal))
  | updateEdge (id : Option Nat) (data : List (String × Option PVal))
  | deleteVertex (id : Nat)
  | deleteEdge (id : Nat)
  deriving DecidableEq, Repr

/-- The state a `UnitOfWork` acts on: the object heap, the session's
identity map, and the store client.  The client is modelled from the spec
(§6): it is an external collaborator, so it is represented by the trace of
calls issued to it plus a counter supplying the identifier each successful
create returns. -/
structure UowState where
  heap : Nat → ObjData
  identityMap : List (Nat × InstState)
  trace : List StoreCall
  nextStoreId : Nat

/-- `IdentityMap.add(obj, update)`: no-op if already tracked; else create a
fresh `InstanceState`.  With `update=True` the source runs
`state.update_id(obj.id)` (which succeeds on a fresh state) and then
`state.update_attributes(data)` — but `data` is an undefined name in
`identity.py`, so a `NameError` escapes before the state is stored. -/
def identityMapAdd (u : UowState) (o : Nat) (update : Bool) : UowState × Option PyError :=
  if o ∈ akeys u.identityMap then (u, none)
  else if update then (u, some PyError.nameError)
  else ({ u with identityMap := aset u.identityMap o freshInstState }, none)

/-- The field map assembled by `register_object_insert`: every declared
property read, (validated — the boolean result is discarded by the source),
coerced to store form under its store name; then the storage-key field
stamped with the model name. -/
def insertData (meta : ModelSpec) (obj : ObjData) : List (String × Option PVal) :=
  let d := meta.props.foldl (fun d p => aset d p.nameDb (p.toDb (getattrP obj p.namePy))) []
  aset d meta.storageKey (some (PVal.vStr meta.modelName))

/-- `UnitOfWork.register_object_insert`: assemble the field map; for a node,
`create_vertex(data)`; for a relationship, pop the `label` field and
`create_edge(obj.outV.id, model_name, obj.inV.id, data)` (an `AttributeError`
if an endpoint reference or its id is missing).  On success assign the
returned identifier to the object, then `identity_map.add(obj, update=True)`
— which raises the `NameError` described at `identityMapAdd`. -/
def registerObjectInsert (md : MetaDataMap) (u : UowState) (o : Nat) : UowState × Option PyError :=
  match forClass md (u.heap o).class_ with
  | Except.error e => (u, some e)
  | Except.ok meta =>
    let obj := u.heap o
    let data := insertData meta obj
    if meta.isNode then
      let newId := u.nextStoreId
      let u1 := { u with trace := u.trace ++ [StoreCall.createVertex data],
                         nextStoreId := u.nextStoreId + 1 }
      let u2 := { u1 with heap := fun n => if n = o then { obj with id := some newId } else u1.heap n }
      identityMapAdd u2 o true
    else
      match obj.outV with
      | none => (u, some PyError.attributeError)
      | some orf =>
        match (u.heap orf).id with
        | none => (u, some PyError.attributeError)
        | some oid =>
          match obj.inV with
          | none => (u, some PyError.attributeError)
          | some irf =>
            match (u.heap irf).id with
            | none => (u, some PyError.attributeError)
            | some iid =>
              let newId := u.nextStoreId
              let u1 := { u with trace := u.trace ++ [StoreCall.createEdge oid meta.modelName iid (aerase data "label")], nextStoreId := u.nextStoreId + 1 }
              let u2 := { u1 with heap := fun n => if n = o then { obj with id := some newId } else u1.heap n }
              identityMapAdd u2 o true

/-- The changed-fields map of `register_object_update`: only properties whose
current value differs from the snapshot, coerced under their store names
(each `validate` result again discarded by the source). -/
def updateData (meta : ModelSpec) (st : InstState) (obj : ObjData) : List (String × Option PVal) :=
  meta.props.foldl (fun d p =>
    let v := getattrP obj p.namePy
    if attributeHasChanged st p.namePy v then aset d p.nameDb (p.toDb v) else d) []

/-- `UnitOfWork.register_object_update`: diff against the snapshot, skip the
store call when nothing changed, else dispatch keyed by the tracked id. -/
def registerObjectUpdate (md : MetaDataMap) (u : UowState) (o : Nat) : UowState × Option PyError :=
  match forClass md (u.heap o).class_ with
  | Except.error e => (u, some e)
  | Except.ok meta =>
    match alookup u.identityMap o with
    | none => (u, some (PyError.exception "KeyError"))
    | some st =>
      let data := updateData meta st (u.heap o)
      if data = [] then (u, none)
      else if meta.isNode then
        ({ u with trace := u.trace ++ [StoreCall.updateVertex st.id data] }, none)
      else
        ({ u with trace := u.trace ++ [StoreCall.updateEdge st.id data] }, none)

/-- `UnitOfWork.register_object_delete`: fails when the object has no `id`
attribute; else `delete_vertex`/`delete_edge` keyed by it. -/
def registerObjectDelete (md : MetaDataMap) (u : UowState) (o : Nat) : UowState × Option PyError :=
  match (u.heap o).id with
  | none => (u, some (PyError.exception "Object has no id."))
  | some i =>
    match forClass md (u.heap o).class_ with
    | Except.error e => (u, some e)
    | Except.ok meta =>
      if meta.isNode then ({ u with trace := u.trace ++ [StoreCall.deleteVertex i] }, none)
      else ({ u with trace := u.trace ++ [StoreCall.deleteEdge i] }, none)

/-- `UnitOfWork.register_object_add`: insert when untracked, update when
tracked. -/
def registerObjectAdd (md : MetaDataMap) (u : UowState) (o : Nat) : UowState × Option PyError :=
  if o ∈ akeys u.identityMap then registerObjectUpdate md u o
  else registerObjectInsert md u o

/-- `MetaData.is_node(obj)`. -/
def isNodeObj (md : MetaDataMap) (u : UowState) (o : Nat) : Bool :=
  (alookup md.nodes (u.heap o).class_).isSome

/-- `MetaData.is_relationship(obj)`. -/
def isRelObj (md : MetaDataMap) (u : UowState) (o : Nat) : Bool :=
  (alookup md.relationships (u.heap o).class_).isSome

/-- `Session`: the unit-of-work state (client + shared identity map + heap)
plus the pending `_add` and `_delete` lists. -/
structure SessionState where
  uow : UowState
  addList : List Nat
  deleteList : List Nat

/-- `Session.add`: if the instance is in `_delete`, the source calls
`self._delete.removeitem(instance)` — Python lists have no `removeitem`
method, so an `AttributeError` escapes; else a tracked re-add is a no-op and
an untracked instance is appended to `_add`. -/
def sessionAdd (s : SessionState) (o : Nat) : SessionState × Option PyError :=
  if o ∈ s.deleteList then (s, some PyError.attributeError)
  else if o ∈ s.addList then (s, none)
  else ({ s with addList := s.addList ++ [o] }, none)

/-- `Session.delete`: fails when the instance is not in the identity map; if
it is in `_add`, the source calls `self._add.removeitem(instance)` — again a
nonexistent list method, so an `AttributeError` escapes; else an already
scheduled delete is a no-op and the instance is appended to `_delete`. -/
def sessionDelete (s : SessionState) (o : Nat) : SessionState × Option PyError :=
  if o ∉ akeys s.uow.identityMap then (s, some (PyError.exception "Object is not in the identity map."))
  else if o ∈ s.addList then (s, some PyError.attributeError)
  else if o ∈ s.deleteList then (s, none)
  else ({ s with deleteList := s.deleteList ++ [o] }, none)

/-- One `for obj in list:` pass of `Session.commit`, short-circuiting once an
exception has escaped (the state reached so far survives, as Python
mutations do). -/
def runUowPass (f : UowState → Nat → UowState × Option PyError) (l : List Nat)
    (acc : UowState × Option PyError) : UowState × Option PyError :=
  l.foldl (fun acc o =>
    match acc with
    | (u, some e) => (u, some e)
    | (u, none) => f u o) acc

/-- The four dispatch passes of `Session.commit`, in source order: added
nodes, added relationships, deleted relationships, deleted nodes. -/
def commitPasses (md : MetaDataMap) (s : SessionState) : UowState × Option PyError :=
  let r1 := runUowPass (fun u o => if isNodeObj md u o then registerObjectAdd md u o else (u, none))
    s.addList (s.uow, none)
  let r2 := runUowPass (fun u o => if isRelObj md u o then registerObjectAdd md u o else (u, none))
    s.addList r1
  let r3 := runUowPass (fun u o => if isRelObj md u o then registerObjectDelete md u o else (u, none))
    s.deleteList r2
  runUowPass (fun u o => if isNodeObj md u o then registerObjectDelete md u o else (u, none))
    s.deleteList r3

/-- `Session.commit`: run the four passes; afterwards the source resets
`self._delete = []` (and only `_delete`) — unless an exception escaped the
passes first. -/
def sessionCommit (md : MetaDataMap) (s : SessionState) : SessionState × Option PyError :=
  match commitPasses md s with
  | (u, some e) => ({ s with uow := u }, some e)
  | (u, none) => ({ uow := u, addList := s.addList, deleteList := [] }, none)

/-! ### Claims C2-C6, C8: session, unit of work, metadata -/

/-- The `Website` node model of the spec scenario (property list empty: the
claims below do not depend on declared properties). -/
def websiteSpec : ModelSpec :=
  { modelName := "Website", storageKey := "element_type", isNode := true, props := [] }

/-- The `Page` node model of the spec scenario. -/
def pageSpec : ModelSpec :=
  { modelName := "Page", storageKey := "element_type", isNode := true, props := [] }

/-- The `hosts` relationship model of the spec scenario. -/
def hostsSpec : ModelSpec :=
  { modelName := "hosts", storageKey := "label", isNode := false, props := [] }

/-- Metadata with Website (class 0), Page (class 1), hosts (class 2). -/
def scenarioMd : MetaDataMap :=
  { nodes := [(0, websiteSpec), (1, pageSpec)], relationships := [(2, hostsSpec)] }

/-- Heap of the create scenario: `w` (identity 10, Website), `p` (identity
11, Page), `e` (identity 12, hosts edge from `w` to `p`), none persisted. -/
def c2CreateHeap : Nat → ObjData := fun n =>
  if n = 10 then { class_ := 0, attrs := [], id := none, outV := none, inV := none }
  else if n = 11 then { class_ := 1, attrs := [], id := none, outV := none, inV := none }
  else { class_ := 2, attrs := [], id := none, outV := some 10, inV := some 11 }

/-- The create-scenario session after `add(e); add(p); add(w)`. -/
def c2CreateSession : SessionState :=
  { uow := { heap := c2CreateHeap, identityMap := [], trace := [], nextStoreId := 100 },
    addList := [12, 11, 10], deleteList := [] }

/-- Heap of the delete scenario: `w`, `p`, `e` persisted with store ids
1, 2, 3. -/
def c2DeleteHeap : Nat → ObjData := fun n =>
  if n = 10 then { class_ := 0, attrs := [], id := some 1, outV := none, inV := none }
  else if n = 11 then { class_ := 1, attrs := [], id := some 2, outV := none, inV := none }
  else { class_ := 2, attrs := [], id := some 3, outV := some 10, inV := some 11 }

/-- The delete-scenario session with all three objects tracked. -/
def c2DeleteBase : SessionState :=
  { uow := { heap := c2DeleteHeap,
             identityMap := [(10, { state := "add", id := some 1, attributes := [] }),
               (11, { state := "add", id := some 2, attributes := [] }),
               (12, { state := "add", id := some 3, attributes := [] })],
             trace := [], nextStoreId := 200 },
    addList := [], deleteList := [] }

/-- The delete-scenario session after `delete(e); delete(w); delete(p)`. -/
def c2DeleteSession : SessionState :=
  (sessionDelete (sessionDelete (sessionDelete c2DeleteBase 12).1 10).1 11).1

/-- C2: on the delete scenario `commit()` does issue `delete_edge(e)` before
`delete_vertex(w)` and `delete_vertex(p)`; but on the create scenario the
first node insert crashes with the `NameError` of `IdentityMap.add` (the
undefined name `data`) right after its `create_vertex`, so commit never
issues the second `create_vertex` nor `create_edge` — the repo's own test
`test_persist_relation` expects this scenario to succeed. -/
theorem c2_commit_phase_order :
    (sessionCommit scenarioMd c2CreateSession).2 = some PyError.nameError ∧
    (sessionCommit scenarioMd c2CreateSession).1.uow.trace =
      [StoreCall.createVertex [("element_type", some (PVal.vStr "Page"))]] ∧
    (sessionCommit scenarioMd c2DeleteSession).2 = none ∧
    (sessionCommit scenarioMd c2DeleteSession).1.uow.trace =
      [StoreCall.deleteEdge 3, StoreCall.deleteVertex 1, StoreCall.deleteVertex 2] := by
  decide

/-- A session whose only pending addition is a tracked, unchanged node:
commit succeeds without any store call. -/
def c3Session : SessionState :=
  { uow := { heap := fun _ => { class_ := 0, attrs := [], id := some 4, outV := none, inV := none },
             identityMap := [(0, { state := "add", id := some 4, attributes := [] })],
             trace := [], nextStoreId := 10 },
    addList := [0], deleteList := [] }

/-- C3 counterexample: `commit()` returns successfully yet the pending add
set still holds the flushed instance — only `self._delete = []` appears in
the source, `_add` is never cleared. -/
theorem c3_counterexample :
    (sessionCommit scenarioMd c3Session).2 = none ∧
    (sessionCommit scenarioMd c3Session).1.addList = [0] ∧
    ¬ (sessionCommit scenarioMd c3Session).1.addList = [] := by
  decide

/-- C3 (amended): after `commit()` returns successfully the pending delete
set is empty, but the pending add set is left exactly as it was. -/
theorem c3_amended_clear_delete_only (md : MetaDataMap) (s : SessionState)
    (hok : (sessionCommit md s).2 = none) :
    (sessionCommit md s).1.deleteList = [] ∧
    (sessionCommit md s).1.addList = s.addList := by
  unfold sessionCommit at hok ⊢
  rcases h : commitPasses md s with ⟨u, e⟩
  rw [h] at hok
  cases e
  · exact ⟨rfl, rfl⟩
  · exact Option.noConfusion hok

/-- Witness for C3 (amended) on the concrete successful commit. -/
theorem c3_witness :
    (sessionCommit scenarioMd c3Session).1.deleteList = [] ∧
    (sessionCommit scenarioMd c3Session).1.addList = c3Session.addList :=
  c3_amended_clear_delete_only scenarioMd c3Session (by decide)

/-- A unit-of-work state holding one untracked, unpersisted Website
instance. -/
def c4Uow : UowState :=
  { heap := fun _ => { class_ := 0, attrs := [], id := none, outV := none, inV := none },
    identityMap := [], trace := [], nextStoreId := 5 }

/-- C4: the insert issues `create_vertex` and assigns the returned
identifier `5` to the object, but the seeding `identity_map.add(obj,
update=True)` raises `NameError` (undefined `data` in `IdentityMap.add`),
so the object is never seeded into the identity map and the error escapes
`commit()` — against the claim and the repo's own `test_persist_relation`. -/
theorem c4_insert_seed_name_error :
    (registerObjectInsert scenarioMd c4Uow 0).2 = some PyError.nameError ∧
    ((registerObjectInsert scenarioMd c4Uow 0).1.heap 0).id = some 5 ∧
    (registerObjectInsert scenarioMd c4Uow 0).1.trace =
      [StoreCall.createVertex [("element_type", some (PVal.vStr "Website"))]] ∧
    alookup (registerObjectInsert scenarioMd c4Uow 0).1.identityMap 0 = none := by
  decide

/-- A session tracking one persisted instance (identity 7) with empty
pending sets. -/
def c5Session : SessionState :=
  { uow := { heap := fun _ => { class_ := 0, attrs := [], id := some 1, outV := none, inV := none },
             identityMap := [(7, { state := "add", id := some 1, attributes := [] })],
             trace := [], nextStoreId := 0 },
    addList := [], deleteList := [] }

/-- C5: `add(o)` then `delete(o)` does not move `o` to the delete set —
`delete` crashes on the nonexistent `list.removeitem` and leaves `o` only in
the add set; symmetrically `delete(o)` then `add(o)` crashes in `add` and
leaves `o` only in the delete set. -/
theorem c5_pending_sets_removeitem :
    (sessionAdd c5Session 7).2 = none ∧
    (sessionDelete (sessionAdd c5Session 7).1 7).2 = some PyError.attributeError ∧
    (sessionDelete (sessionAdd c5Session 7).1 7).1.addList = [7] ∧
    (sessionDelete (sessionAdd c5Session 7).1 7).1.deleteList = [] ∧
    (sessionDelete c5Session 7).2 = none ∧
    (sessionAdd (sessionDelete c5Session 7).1 7).2 = some PyError.attributeError ∧
    (sessionAdd (sessionDelete c5Session 7).1 7).1.addList = [] ∧
    (sessionAdd (sessionDelete c5Session 7).1 7).1.deleteList = [7] := by
  decide

/-- A non-nullable `name` property whose scalar validator accepts anything
(the nullable check alone decides the failure). -/
def nameProp : PropSpec :=
  { namePy := "name", nameDb := "name", nullable := some false,
    typeValidate := fun _ => (true, []), toDb := fun v => v }

/-- Website model declaring the non-nullable `name` property. -/
def websiteNameSpec : ModelSpec :=
  { modelName := "Website", storageKey := "element_type", isNode := true, props := [nameProp] }

/-- Metadata for the validation scenario. -/
def c6Md : MetaDataMap :=
  { nodes := [(0, websiteNameSpec)], relationships := [] }

/-- A unit-of-work state holding a Website whose `name` is `None`. -/
def c6Uow : UowState :=
  { heap := fun _ => { class_ := 0, attrs := [("name", none)], id := none, outV := none, inV := none },
    identityMap := [], trace := [], nextStoreId := 9 }

/-- C6 counterexample: the `name` value fails validation (non-nullable and
absent), yet the insert still dispatches `create_vertex` with the coerced
field map — the source calls `property.validate(...)` and discards the
result; the error that escapes is the unrelated seeding `NameError`, not a
validation error. -/
theorem c6_counterexample :
    (propertyValidate nameProp (getattrP (c6Uow.heap 0) "name")).1 = false ∧
    (registerObjectInsert c6Md c6Uow 0).1.trace =
      [StoreCall.createVertex [("name", none), ("element_type", some (PVal.vStr "Website"))]] ∧
    (registerObjectInsert c6Md c6Uow 0).2 = some PyError.nameError := by
  decide

/-- C6 (amended): during insert the unit of work reads and validates every
declared property but discards each validation result: even when some
declared property's current value fails validation, the insert is not
aborted and the store create call is dispatched with the coerced field
map. -/
theorem c6_amended_validate_discarded (md : MetaDataMap) (u : UowState) (o : Nat)
    (meta : ModelSpec)
    (hmeta : forClass md (u.heap o).class_ = Except.ok meta)
    (hnode : meta.isNode = true)
    (hfail : ∃ p ∈ meta.props, (propertyValidate p (getattrP (u.heap o) p.namePy)).1 = false) :
    (registerObjectInsert md u o).1.trace =
      u.trace ++ [StoreCall.createVertex (insertData meta (u.heap o))] := by
  have htr : ∀ (u2 : UowState) (b : Bool), (identityMapAdd u2 o b).1.trace = u2.trace := by
    intro u2 b
    unfold identityMapAdd
    split
    · rfl
    · split
      · rfl
      · rfl
  unfold registerObjectInsert
  rw [hmeta]
  dsimp only
  rw [if_pos hnode, htr]

/-- Witness for C6 (amended) on the concrete failing `name` value. -/
theorem c6_witness :
    (registerObjectInsert c6Md c6Uow 0).1.trace =
      c6Uow.trace ++ [StoreCall.createVertex (insertData websiteNameSpec (c6Uow.heap 0))] :=
  c6_amended_validate_discarded c6Md c6Uow 0 websiteNameSpec rfl rfl
    ⟨nameProp, by simp [websiteNameSpec], by decide⟩

/-- Metadata whose node registry is empty (the relationship alone is
registered). -/
def c8EmptyNodesMd : MetaDataMap :=
  { nodes := [], relationships := [(2, hostsSpec)] }

/-- C8: `for_model_name` on a relationship model's name returns the stale
first-loop variable `node_model` — the LAST node registry entry (here
`pageSpec`, not the `hosts` model), and a `NameError` when no node is
registered; node names and the unmapped error behave as claimed. -/
theorem c8_for_model_name_wrong_model :
    forModelName scenarioMd "hosts" = Except.ok pageSpec ∧
    ¬ pageSpec.modelName = "hosts" ∧
    forModelName c8EmptyNodesMd "hosts" = Except.error PyError.nameError ∧
    forModelName scenarioMd "Website" = Except.ok websiteSpec ∧
    forModelName scenarioMd "Page" = Except.ok pageSpec ∧
    forModelName scenarioMd "Absent" = Except.error (PyError.exception "Unmapped model.") :=
  ⟨rfl, by decide, rfl, rfl, rfl, rfl⟩

/-! ### Claim C9: `Node.add_adjacency` mutates before validating -/

/-- A `Node` model as seen by `add_adjacency`: its own identity and its
`_adjacencies` map (accessor name → adjacency).  Model objects are compared
by identity (`adjacency.out_node != self`), represented by `ref`. -/
structure NodeModelS where
  ref : Nat
  adjacencies : List (String × Nat)

/-- An `Adjacency`: endpoint node-model identities, the accessor names
filled in by `add_adjacency`, and its own identity (`unique`/`nullable` are
declarative only and unused by `add_adjacency`). -/
structure AdjacencyS where
  ref : Nat
  outNode : Nat
  inNode : Nat
  outMethod : Option String
  inMethod : Option String

/-- `Node.add_adjacency(adjacency, name)`, in source order: first
`self._adjacencies[name] = adjacency`, then the endpoint check raising when
this node is neither endpoint, then direction inference filling
`out_method`/`in_method`.  (The `setattr` of the `RelationProxy` on the
bound class is the accessor installation modelled by `RelWorld`.) -/
def nodeAddAdjacency (n : NodeModelS) (a : AdjacencyS) (name : String) :
    (NodeModelS × AdjacencyS) × Option PyError :=
  let n1 : NodeModelS := { n with adjacencies := aset n.adjacencies name a.ref }
  if a.outNode ≠ n.ref ∧ a.inNode ≠ n.ref then
    ((n1, a), some (PyError.exception "This adjacency cannot be mapped to this Node."))
  else if a.outNode = n.ref then
    ((n1, { a with outMethod := some name }), none)
  else
    ((n1, { a with inMethod := some name }), none)

/-- C9: with an adjacency whose endpoints are both foreign, `add_adjacency`
raises the invalid-binding error, but the adjacency is already recorded in
the model's `_adjacencies` under the accessor name — the mutation precedes
the check, so the model stays mutated despite the error. -/
theorem c9_add_adjacency_not_atomic (n : NodeModelS) (a : AdjacencyS) (name : String)
    (hout : a.outNode ≠ n.ref) (hin : a.inNode ≠ n.ref) :
    (nodeAddAdjacency n a name).2 =
      some (PyError.exception "This adjacency cannot be mapped to this Node.") ∧
    alookup (nodeAddAdjacency n a name).1.1.adjacencies name = some a.ref := by
  unfold nodeAddAdjacency
  rw [if_pos ⟨hout, hin⟩]
  exact ⟨rfl, alookup_aset_self _ _ _⟩

/-- Witness for C9: node `1`, adjacency `6` between foreign nodes `2` and
`3`. -/
theorem c9_witness :
    (nodeAddAdjacency { ref := 1, adjacencies := [] }
        { ref := 6, outNode := 2, inNode := 3, outMethod := none, inMethod := none } "hosts").2 =
      some (PyError.exception "This adjacency cannot be mapped to this Node.") ∧
    alookup (nodeAddAdjacency { ref := 1, adjacencies := [] }
        { ref := 6, outNode := 2, inNode := 3, outMethod := none, inMethod := none } "hosts").1.1.adjacencies
        "hosts" =
      some 6 :=
  c9_add_adjacency_not_atomic { ref := 1, adjacencies := [] }
    { ref := 6, outNode := 2, inNode := 3, outMethod := none, inMethod := none } "hosts"
    (by decide) (by decide)
